import Mathlib

/-!
Verification development for the zangetsu-logger repository.

The definitions below are shallow embeddings of the Python source:

* `CloudStorageHandler` (src/zangetsu_logger/cloud_handlers.py): buffered
  batch upload of log records with a capacity / severity / timer / close
  flush policy.  The abstract sink `_upload_logs` (implemented by the S3
  and GCS subclasses, which format the records, lazily construct a client
  and perform the network call) is modelled as a function from the batch
  to `Except String Unit`: `Except.error e` models the call raising an
  exception with message `e`, covering formatting, client construction and
  the upload itself.  Wall-clock readings (`time.time()`) are passed in as
  explicit `Nat` arguments.
* `EnvVarFileHandler` (src/zangetsu_logger/handlers.py).
* `zangetsuJsonFormatter` (src/zangetsu_logger/formatters.py).
-/

namespace Zangetsu

/-- A log record as the buffering handler sees it: its numeric level and its
message payload (the fields `MemoryHandler.shouldFlush` and the sinks read). -/
structure LogRecord where
  levelno : Nat
  msg : String
  deriving Repr, DecidableEq

/-- Constructor configuration of `CloudStorageHandler.__init__`
(capacity, flushLevel, flushOnClose, flush_interval). -/
structure Config where
  capacity : Nat
  flushLevel : Nat
  flushOnClose : Bool
  flushInterval : Nat
  deriving Repr, DecidableEq

/-- Mutable state of a `CloudStorageHandler`: the record buffer and
`_last_flush_time`.  The source has no further control state: in
particular there is no flag recording that the handler was closed or that
the timer thread was cancelled. -/
structure HState where
  buffer : List LogRecord
  lastFlushTime : Nat
  deriving Repr, DecidableEq

/-- The abstract sink `_upload_logs`: given the batch, it either returns
normally or raises an exception carrying a message. -/
def Sink : Type := List LogRecord → Except String Unit

/-- The stderr line written by the `except` branch of `flush`. -/
def errLine (e : String) : String :=
  "Error uploading logs to cloud storage: " ++ e ++ "\n"

/-- Observable outcome of a handler operation: the post state, the batches
passed to `_upload_logs` (in call order, whether or not the call raised),
and the lines written to stderr. -/
structure FlushOut where
  state : HState
  uploaded : List (List LogRecord)
  stderrLines : List String
  deriving Repr, DecidableEq

/-- The body of the `try` block of `CloudStorageHandler.flush`: call
`_upload_logs(self.buffer)`, then `self.buffer = []`, then
`self._last_flush_time = time.time()`.  An exception from the upload
aborts the body before either assignment happens. -/
def flushTryBody (sink : Sink) (now : Nat) (s : HState) : Except String HState := do
  _ ← sink s.buffer
  pure { buffer := [], lastFlushTime := now }

/-- `CloudStorageHandler.flush`: under `self._buffer_lock`, if the buffer is
non-empty, run the try body; on an exception, write the error line to
stderr and return normally with the state as it was when the body started.
The batch is passed to the upload call in both outcomes. -/
def flush (sink : Sink) (now : Nat) (s : HState) : FlushOut :=
  if s.buffer.isEmpty then ⟨s, [], []⟩
  else
    match flushTryBody sink now s with
    | Except.ok s2 => ⟨s2, [s.buffer], []⟩
    | Except.error e => ⟨s, [s.buffer], [errLine e]⟩

/-- Atomic events performed by one call to `flush`, in program order. -/
inductive FlushEvent where
  | acquireLock : FlushEvent
  | uploadCall : List LogRecord → FlushEvent
  | clearBuffer : FlushEvent
  | setLastFlushTime : Nat → FlushEvent
  | stderrWrite : String → FlushEvent
  | releaseLock : FlushEvent
  deriving Repr, DecidableEq

/-- The event trace of one call to `CloudStorageHandler.flush`, read off the
source line by line: the `with self._buffer_lock:` block acquires the lock,
the guarded body runs entirely inside it, and the lock is released when the
block exits.  On the success path the events inside the lock are the upload
call, then the buffer clear, then the `_last_flush_time` assignment; on the
failure path they are the upload call and the stderr write. -/
def flushTrace (sink : Sink) (now : Nat) (s : HState) : List FlushEvent :=
  FlushEvent.acquireLock ::
    ((if s.buffer.isEmpty then []
      else
        match sink s.buffer with
        | Except.ok _ =>
            [FlushEvent.uploadCall s.buffer, FlushEvent.clearBuffer,
             FlushEvent.setLastFlushTime now]
        | Except.error e =>
            [FlushEvent.uploadCall s.buffer, FlushEvent.stderrWrite (errLine e)])
      ++ [FlushEvent.releaseLock])

/-- `MemoryHandler.shouldFlush` of the standard library base class (the
source inherits it unchanged): flush when the buffer length has reached
`capacity` or the record level has reached `flushLevel`.  It is evaluated
after the record was appended, so `s` is the post-append state. -/
def shouldFlush (cfg : Config) (s : HState) (r : LogRecord) : Bool :=
  cfg.capacity ≤ s.buffer.length || cfg.flushLevel ≤ r.levelno

/-- Whether `MemoryHandler.emit` invokes `flush` for this append: the
`shouldFlush` test on the post-append buffer. -/
def emitInvokesFlush (cfg : Config) (r : LogRecord) (s : HState) : Bool :=
  shouldFlush cfg { s with buffer := s.buffer ++ [r] } r

/-- `MemoryHandler.emit` of the standard library base class (the append
path the source inherits): append the record to the buffer, then, if
`shouldFlush`, synchronously call `self.flush()` before returning. -/
def emitRecord (cfg : Config) (sink : Sink) (now : Nat) (r : LogRecord)
    (s : HState) : FlushOut :=
  let s1 : HState := { s with buffer := s.buffer ++ [r] }
  if shouldFlush cfg s1 r then flush sink now s1 else ⟨s1, [], []⟩

/-- One wake-up of the `_flush_timer` daemon thread started by
`_start_timer`: the thread exists only when `flush_interval > 0`, and on
each wake-up it calls `self.flush()` exactly when
`time.time() - self._last_flush_time >= self.flush_interval`.  The loop is
`while True`: nothing in the handler state can stop it, so a tick is
possible at any point of a run, including after `close`. -/
def timerTick (cfg : Config) (sink : Sink) (now : Nat) (s : HState) : FlushOut :=
  if 0 < cfg.flushInterval ∧ cfg.flushInterval ≤ now - s.lastFlushTime then
    flush sink now s
  else ⟨s, [], []⟩

/-- Sequential composition of two operation outcomes. -/
def seqOut (a b : FlushOut) : FlushOut :=
  ⟨b.state, a.uploaded ++ b.uploaded, a.stderrLines ++ b.stderrLines⟩

/-- `MemoryHandler.close` of the standard library base class, which
`CloudStorageHandler.close` invokes through `super().close()`: it flushes
again when `flushOnClose` is set, then delegates to
`BufferingHandler.close`, which calls `self.flush()` unconditionally.
Neither touches the timer thread. -/
def memoryHandlerClose (cfg : Config) (sink : Sink) (now : Nat)
    (s : HState) : FlushOut :=
  let a := if cfg.flushOnClose then flush sink now s else ⟨s, [], []⟩
  seqOut a (flush sink now a.state)

/-- `CloudStorageHandler.close`: `if self.flushOnClose: self.flush()`, then
`super().close()`.  No statement of `close` cancels or signals the timer
thread. -/
def closeHandler (cfg : Config) (sink : Sink) (now : Nat) (s : HState) : FlushOut :=
  let a := if cfg.flushOnClose then flush sink now s else ⟨s, [], []⟩
  seqOut a (memoryHandlerClose cfg sink now a.state)

deriving instance DecidableEq for Except

/-- An externally triggered handler operation.  Each carries the wall-clock
reading at which it runs and the outcome the sink would produce if the
operation reaches the upload call. -/
inductive Op where
  | emitOp : LogRecord → Except String Unit → Nat → Op
  | tickOp : Nat → Except String Unit → Op
  | closeOp : Nat → Except String Unit → Op
  deriving Repr, DecidableEq

/-- The sink outcome an operation carries. -/
def Op.res : Op → Except String Unit
  | Op.emitOp _ r _ => r
  | Op.tickOp _ r => r
  | Op.closeOp _ r => r

/-- Run one operation against the handler state. -/
def applyOp (cfg : Config) (op : Op) (s : HState) : FlushOut :=
  match op with
  | Op.emitOp r res now => emitRecord cfg (fun _ => res) now r s
  | Op.tickOp now res => timerTick cfg (fun _ => res) now s
  | Op.closeOp now res => closeHandler cfg (fun _ => res) now s

/-- Run a sequence of operations, accumulating uploaded batches and stderr
lines in order. -/
def run (cfg : Config) (ops : List Op) (s : HState) : FlushOut :=
  match ops with
  | [] => ⟨s, [], []⟩
  | op :: rest => seqOut (applyOp cfg op s) (run cfg rest (applyOp cfg op s).state)

/-- The records appended by a run, in order. -/
def appendedRecords (ops : List Op) : List LogRecord :=
  ops.filterMap fun op =>
    match op with
    | Op.emitOp r _ _ => some r
    | _ => none

/-- Output destinations of an `EnvVarFileHandler`: its log file stream or
the fallback error stream (`sys.stderr`). -/
inductive OutTarget where
  | logFile : OutTarget
  | stderrStream : OutTarget
  deriving Repr, DecidableEq

/-- State of an `EnvVarFileHandler`: the stream its writes currently go to
(`self.stream`).  The source keeps no other error-handling state: in
particular no flag remembering that an emit error was already reported. -/
structure FileHandlerState where
  stream : OutTarget
  deriving Repr, DecidableEq

/-- The stderr line written by `EnvVarFileHandler.__init__` on a file
creation failure. -/
def createErrLine (filename e : String) : String :=
  "Failed to create log file " ++ filename ++ ": " ++ e ++ "\n"

/-- The stderr line written by the `except` branch of
`EnvVarFileHandler.emit`. -/
def writeErrLine (e : String) : String :=
  "Error writing to log file: " ++ e ++ "\n"

/-- `EnvVarFileHandler._resolve_filename`: an absolute path is used as is;
otherwise the `zangetsu_LOG_DIR` environment variable, when set, is the
directory, and the current working directory is the default.  Absoluteness
on posix is a leading slash. -/
def resolveFilename (logDirEnv : Option String) (cwd : String)
    (filename : String) : String :=
  if filename.startsWith ("/") then filename
  else
    match logDirEnv with
    | some d => d ++ "/" ++ filename
    | none => cwd ++ "/" ++ filename

/-- The tail of `EnvVarFileHandler.__init__` after `super().__init__`: try
to create / open the resolved file to check writability
(`createResult` abstracts that attempt); on an `IOError` or
`PermissionError`, report the failure to stderr and redirect
`self.stream` to stderr.  Returns the initial state and the stderr lines
written. -/
def envVarFileHandlerInit (filename : String) (createResult : Except String Unit) :
    FileHandlerState × List String :=
  match createResult with
  | Except.ok _ => (⟨OutTarget.logFile⟩, [])
  | Except.error e => (⟨OutTarget.stderrStream⟩, [createErrLine filename e])

/-- Observable outcome of one `EnvVarFileHandler.emit`: the post state, the
records written with their destination, and the stderr lines written. -/
structure FhEmitOut where
  state : FileHandlerState
  written : List (OutTarget × String)
  stderrLines : List String
  deriving Repr, DecidableEq

/-- `EnvVarFileHandler.emit`: run the inherited rotating-file emit, whose
write (including any rollover) is abstracted by `writeResult`; on success
the formatted record went to the current stream.  On an exception, the
`except` branch writes the error line to stderr and returns; the record is
written nowhere and no field of the handler (in particular `self.stream`)
is changed. -/
def fhEmit (writeResult : Except String Unit) (msg : String)
    (s : FileHandlerState) : FhEmitOut :=
  match writeResult with
  | Except.ok _ => ⟨s, [(s.stream, msg)], []⟩
  | Except.error e => ⟨s, [], [writeErrLine e]⟩

/-- The record fields `zangetsuJsonFormatter.format` can see.  `created` is
the capture-time timestamp the logging framework stamps on every record;
the numeric fields of the source are rendered through `toString` as the
JSON dump would. -/
structure FmtRecord where
  levelname : String
  name : String
  message : String
  created : Nat
  filename : String
  pathname : String
  funcName : String
  lineno : Nat
  module : String
  deriving Repr, DecidableEq

/-- The timestamp string `current_time.strftime` produces, modelled at the
resolution the format string `%Y-%m-%dT%H:%M:%S.%fZ` has: the instant
(microseconds of wall-clock time) rendered as its decimal digits,
most significant first. -/
def timestampStr (t : Nat) : String :=
  String.mk (((Nat.digits 10 t).reverse).map Nat.digitChar)

/-- `zangetsuJsonFormatter.format`: build the JSON object field by field in
source order.  The timestamp is derived from `now`, the wall clock read by
`datetime.now(self.jst)` at format time; no field reads `record.created`.
The optional `exception` block and the environment-variable extras are
omitted: they involve neither timestamps nor `record.created`. -/
def jsonFormat (hostname : String) (now : Nat) (r : FmtRecord) :
    List (String × String) :=
  [("timestamp", timestampStr now),
   ("level", r.levelname),
   ("logger", r.name),
   ("message", r.message),
   ("hostname", hostname),
   ("filename", r.filename),
   ("pathname", r.pathname),
   ("function", r.funcName),
   ("line", toString r.lineno),
   ("module", r.module)]

/-! ### Concrete fixtures used by witnesses and counterexamples -/

/-- A concrete record (level 40 is `logging.ERROR`). -/
def rec0 : LogRecord := ⟨40, "m0"⟩

/-- A low-severity concrete record (level 20 is `logging.INFO`). -/
def rec1 : LogRecord := ⟨20, "m1"⟩

/-- A sink whose upload always succeeds. -/
def sinkOk : Sink := fun _ => Except.ok ()

/-- A sink whose upload always raises. -/
def sinkFail : Sink := fun _ => Except.error ("boom")

/-- A concrete configuration: capacity 100, flushLevel 40 (ERROR),
flushOnClose true, flush_interval 1. -/
def cfg1 : Config := ⟨100, 40, true, 1⟩

/-! ### Helper lemmas about `flush` -/

theorem flushTryBody_ok (sink : Sink) (now : Nat) (s : HState)
    (h : sink s.buffer = Except.ok ()) :
    flushTryBody sink now s = Except.ok { buffer := [], lastFlushTime := now } := by
  simp [flushTryBody, h]

theorem flushTryBody_error (sink : Sink) (now : Nat) (s : HState) (e : String)
    (h : sink s.buffer = Except.error e) :
    flushTryBody sink now s = Except.error e := by
  simp [flushTryBody, h]

theorem flush_ok_eq (sink : Sink) (now : Nat) (s : HState)
    (h : sink s.buffer = Except.ok ()) :
    flush sink now s =
      if s.buffer.isEmpty then ⟨s, [], []⟩
      else ⟨{ buffer := [], lastFlushTime := now }, [s.buffer], []⟩ := by
  by_cases hb : s.buffer.isEmpty <;>
    simp [flush, hb, flushTryBody_ok sink now s h]

theorem flush_error_eq (sink : Sink) (now : Nat) (s : HState) (e : String)
    (hb : s.buffer.isEmpty = false) (h : sink s.buffer = Except.error e) :
    flush sink now s = ⟨s, [s.buffer], [errLine e]⟩ := by
  simp [flush, hb, flushTryBody_error sink now s e h]

/-! ### Claim C1 -/

/-- Claim C1, counterexample: the batch taken by a failing flush is not
dropped.  Starting from a buffer holding `rec0`, a flush whose upload
raises passes the batch `[rec0]` to the upload call, and a later flush
passes the very same record `rec0` to a later upload call again: the
failed batch is retained and re-attempted, not dropped. -/
theorem flush_failed_batch_uploaded_again :
    (flush sinkFail 1 ⟨[rec0], 0⟩).uploaded = [[rec0]] ∧
    (flush sinkOk 2 (flush sinkFail 1 ⟨[rec0], 0⟩).state).uploaded = [[rec0]] := by
  decide

/-- Claim C1, amended: on an upload failure the taken batch is retained in
the buffer unchanged (so its records are re-attempted by later flushes,
rather than dropped), and the failure is reported to stderr while flush
returns normally. -/
theorem flush_failure_retains_batch_and_reports (sink : Sink) (now : Nat)
    (s : HState) (e : String) (hb : s.buffer.isEmpty = false)
    (h : sink s.buffer = Except.error e) :
    flush sink now s = ⟨s, [s.buffer], [errLine e]⟩ :=
  flush_error_eq sink now s e hb h

/-- Witness for the amended C1 theorem at a concrete input. -/
theorem flush_failure_retains_batch_and_reports_witness :
    flush sinkFail 7 ⟨[rec0, rec1], 3⟩ =
      ⟨⟨[rec0, rec1], 3⟩, [[rec0, rec1]], [errLine ("boom")]⟩ :=
  flush_failure_retains_batch_and_reports sinkFail 7 ⟨[rec0, rec1], 3⟩
    ("boom") (by decide) (by decide)

/-! ### Claim C2 -/

/-- Claim C2, counterexample: on a concrete non-empty buffer with a
succeeding sink, the flush trace acquires the lock, performs the upload
call, clears the buffer, sets the flush time and only then releases the
lock: the upload call sits strictly between the lock acquisition and the
lock release (so the lock is held across the upload), and the buffer is
cleared only after the upload call, not swapped out before it. -/
theorem flush_holds_lock_across_upload_cex :
    flushTrace sinkOk 1 ⟨[rec0], 0⟩ =
      [FlushEvent.acquireLock, FlushEvent.uploadCall [rec0],
       FlushEvent.clearBuffer, FlushEvent.setLastFlushTime 1,
       FlushEvent.releaseLock] ∧
    (flushTrace sinkOk 1 ⟨[rec0], 0⟩).indexOf (FlushEvent.uploadCall [rec0]) <
      (flushTrace sinkOk 1 ⟨[rec0], 0⟩).indexOf FlushEvent.releaseLock ∧
    (flushTrace sinkOk 1 ⟨[rec0], 0⟩).indexOf (FlushEvent.uploadCall [rec0]) <
      (flushTrace sinkOk 1 ⟨[rec0], 0⟩).indexOf FlushEvent.clearBuffer := by
  decide

/-- Claim C2, amended: for every flush on a non-empty buffer the upload
call happens while the exclusive lock is held — the trace is the lock
acquisition, then immediately the upload call on the whole buffer, then
the remaining bookkeeping (buffer clear and flush-time update on success,
stderr report on failure), and the lock release comes last.  The buffer is
not swapped out before the upload. -/
theorem flush_upload_inside_lock (sink : Sink) (now : Nat) (s : HState)
    (hb : s.buffer.isEmpty = false) :
    ∃ mid, flushTrace sink now s =
      FlushEvent.acquireLock :: FlushEvent.uploadCall s.buffer ::
        (mid ++ [FlushEvent.releaseLock]) := by
  cases h : sink s.buffer with
  | ok u => exact ⟨[FlushEvent.clearBuffer, FlushEvent.setLastFlushTime now],
      by simp [flushTrace, hb, h]⟩
  | error e => exact ⟨[FlushEvent.stderrWrite (errLine e)],
      by simp [flushTrace, hb, h]⟩

/-- Witness for the amended C2 theorem at a concrete input. -/
theorem flush_upload_inside_lock_witness :
    ∃ mid, flushTrace sinkFail 4 ⟨[rec1], 0⟩ =
      FlushEvent.acquireLock :: FlushEvent.uploadCall [rec1] ::
        (mid ++ [FlushEvent.releaseLock]) :=
  flush_upload_inside_lock sinkFail 4 ⟨[rec1], 0⟩ (by decide)

/-! ### Claim C4 -/

/-- Claim C4: every exception raised inside the try body of `flush` — the
upload call, which for the concrete handlers includes record formatting
and lazy sink-client construction — is caught: `flush` writes the error
line to stderr and returns normally with the handler state intact, so
nothing propagates to the logging caller. -/
theorem flush_catches_every_upload_exception (sink : Sink) (now : Nat)
    (s : HState) (e : String) (hb : s.buffer.isEmpty = false)
    (h : flushTryBody sink now s = Except.error e) :
    flush sink now s = ⟨s, [s.buffer], [errLine e]⟩ := by
  simp [flush, hb, h]

/-- Witness for the C4 theorem at a concrete input. -/
theorem flush_catches_every_upload_exception_witness :
    flush sinkFail 9 ⟨[rec1], 2⟩ = ⟨⟨[rec1], 2⟩, [[rec1]], [errLine ("boom")]⟩ :=
  flush_catches_every_upload_exception sinkFail 9 ⟨[rec1], 2⟩ ("boom")
    (by decide) (by decide)

/-! ### Claim C5 -/

/-- Claim C5, counterexample: there is no takeover step that updates
`lastFlushTime` independently of the upload outcome.  On a concrete
failing flush at wall-clock time 5, `lastFlushTime` stays 0 instead of
being updated to 5. -/
theorem lastFlushTime_unchanged_on_failure_cex :
    (flush sinkFail 5 ⟨[rec0], 0⟩).state.lastFlushTime = 0 ∧ (0 : Nat) ≠ 5 := by
  decide

/-- Claim C5, amended: `lastFlushTime` is updated (to the current
wall-clock reading) only when the upload call returns successfully, as the
last step after the upload and the buffer clear; when the upload raises,
`lastFlushTime` is unchanged. -/
theorem lastFlushTime_updated_only_after_successful_upload (sink : Sink)
    (now : Nat) (s : HState) (hb : s.buffer.isEmpty = false) :
    (sink s.buffer = Except.ok () →
       (flush sink now s).state.lastFlushTime = now ∧
       flushTrace sink now s =
         [FlushEvent.acquireLock, FlushEvent.uploadCall s.buffer,
          FlushEvent.clearBuffer, FlushEvent.setLastFlushTime now,
          FlushEvent.releaseLock]) ∧
    (∀ e, sink s.buffer = Except.error e →
       (flush sink now s).state.lastFlushTime = s.lastFlushTime) := by
  constructor
  · intro h
    constructor
    · rw [flush_ok_eq sink now s h]
      simp [hb]
    · simp [flushTrace, hb, h]
  · intro e h
    rw [flush_error_eq sink now s e hb h]

/-- Witness for the amended C5 theorem at a concrete input. -/
theorem lastFlushTime_updated_only_after_successful_upload_witness :
    (flush sinkOk 6 ⟨[rec0], 0⟩).state.lastFlushTime = 6 :=
  ((lastFlushTime_updated_only_after_successful_upload sinkOk 6 ⟨[rec0], 0⟩
    (by decide)).1 (by decide)).1

/-! ### Claim C8 -/

/-- Claim C8: if the upload call raises during `flush`, the handler state
is exactly as it was before the flush — the buffer still holds all of its
records in their original order, ready for the next flush, and
`lastFlushTime` is unchanged. -/
theorem flush_failure_leaves_state_unchanged (sink : Sink) (now : Nat)
    (s : HState) (e : String) (h : sink s.buffer = Except.error e) :
    (flush sink now s).state = s := by
  by_cases hb : s.buffer.isEmpty
  · simp [flush, hb]
  · rw [flush_error_eq sink now s e (by simpa using hb) h]

/-- Witness for the C8 theorem at a concrete input. -/
theorem flush_failure_leaves_state_unchanged_witness :
    (flush sinkFail 8 ⟨[rec1, rec0], 4⟩).state = ⟨[rec1, rec0], 4⟩ :=
  flush_failure_leaves_state_unchanged sinkFail 8 ⟨[rec1, rec0], 4⟩ ("boom")
    (by decide)

/-! ### Claim C6 -/

/-- Claim C6: `emit` (the append path) invokes `flush` before returning
exactly when the post-append buffer length has reached `capacity` or the
record level has reached `flushLevel` — in particular a record at or above
`flushLevel` forces a flush even when capacity is not reached — and any
other append returns with the record retained at the end of the buffer and
no upload and no stderr output. -/
theorem emit_flushes_iff_capacity_or_level (cfg : Config) (r : LogRecord)
    (s : HState) :
    (emitInvokesFlush cfg r s = true ↔
       (cfg.capacity ≤ s.buffer.length + 1 ∨ cfg.flushLevel ≤ r.levelno)) ∧
    (∀ sink now, emitInvokesFlush cfg r s = true →
       emitRecord cfg sink now r s =
         flush sink now { s with buffer := s.buffer ++ [r] }) ∧
    (∀ sink now, emitInvokesFlush cfg r s = false →
       emitRecord cfg sink now r s = ⟨{ s with buffer := s.buffer ++ [r] }, [], []⟩) := by
  refine ⟨?_, ?_, ?_⟩
  · simp [emitInvokesFlush, shouldFlush]
  · intro sink now h
    simp only [emitInvokesFlush] at h
    simp [emitRecord, h]
  · intro sink now h
    simp only [emitInvokesFlush] at h
    simp [emitRecord, h]

/-- Witness for the C6 theorem: a severity-40 record appended to an empty
buffer of a capacity-100 handler with flushLevel 40 triggers a flush. -/
theorem emit_flushes_iff_capacity_or_level_witness :
    emitInvokesFlush cfg1 rec0 ⟨[], 0⟩ = true :=
  (emit_flushes_iff_capacity_or_level cfg1 rec0 ⟨[], 0⟩).1.mpr
    (Or.inr (by decide))

/-! ### Delivery bookkeeping for runs with a non-failing sink -/

/-- An operation outcome conserves the records of a start state `s` when
the records it passed to upload calls followed by the records still
buffered are exactly the records `s` held. -/
def conserves (s : HState) (o : FlushOut) : Prop :=
  (o.uploaded).flatten ++ o.state.buffer = s.buffer

theorem conserves_nil (s : HState) : conserves s ⟨s, [], []⟩ := by
  simp [conserves]

theorem conserves_seq {s : HState} {a b : FlushOut} (ha : conserves s a)
    (hb : conserves a.state b) : conserves s (seqOut a b) := by
  simp only [conserves, seqOut, List.flatten_append] at *
  rw [List.append_assoc, hb, ha]

theorem flush_ok_conserves (sink : Sink) (now : Nat) (s : HState)
    (h : sink s.buffer = Except.ok ()) : conserves s (flush sink now s) := by
  rw [flush_ok_eq sink now s h]
  by_cases hb : s.buffer.isEmpty <;> simp [conserves, hb]

theorem timerTick_ok_conserves (cfg : Config) (sink : Sink) (now : Nat)
    (s : HState) (h : ∀ b, sink b = Except.ok ()) :
    conserves s (timerTick cfg sink now s) := by
  unfold timerTick
  split
  · exact flush_ok_conserves sink now s (h _)
  · exact conserves_nil s

theorem closeHandler_ok_conserves (cfg : Config) (sink : Sink) (now : Nat)
    (s : HState) (h : ∀ b, sink b = Except.ok ()) :
    conserves s (closeHandler cfg sink now s) := by
  have hflush : ∀ s2 : HState, conserves s2 (flush sink now s2) := fun s2 =>
    flush_ok_conserves sink now s2 (h _)
  have hguard : ∀ s2 : HState,
      conserves s2 (if cfg.flushOnClose then flush sink now s2 else ⟨s2, [], []⟩) := by
    intro s2
    split
    · exact hflush s2
    · exact conserves_nil s2
  simp only [closeHandler, memoryHandlerClose]
  exact conserves_seq (hguard s) (conserves_seq (hguard _) (hflush _))

theorem emitRecord_ok_delivery (cfg : Config) (sink : Sink) (now : Nat)
    (r : LogRecord) (s : HState) (h : ∀ b, sink b = Except.ok ()) :
    ((emitRecord cfg sink now r s).uploaded).flatten ++
        (emitRecord cfg sink now r s).state.buffer = s.buffer ++ [r] := by
  by_cases hf : shouldFlush cfg { s with buffer := s.buffer ++ [r] } r
  · have he : emitRecord cfg sink now r s =
        flush sink now { s with buffer := s.buffer ++ [r] } := by
      simp [emitRecord, hf]
    rw [he]
    exact flush_ok_conserves sink now _ (h _)
  · have he : emitRecord cfg sink now r s =
        ⟨{ s with buffer := s.buffer ++ [r] }, [], []⟩ := by
      simp [emitRecord, hf]
    rw [he]
    simp

/-- The records an operation appends. -/
def opAppends : Op → List LogRecord
  | Op.emitOp r _ _ => [r]
  | _ => []

/-- A run whose every operation carries a successful sink outcome. -/
def okOps (ops : List Op) : Prop := ∀ op ∈ ops, op.res = Except.ok ()

instance (ops : List Op) : Decidable (okOps ops) :=
  inferInstanceAs (Decidable (∀ op ∈ ops, op.res = Except.ok ()))

theorem applyOp_ok_delivery (cfg : Config) (op : Op) (s : HState)
    (h : op.res = Except.ok ()) :
    ((applyOp cfg op s).uploaded).flatten ++ (applyOp cfg op s).state.buffer
      = s.buffer ++ opAppends op := by
  cases op with
  | emitOp r res now =>
      have hres : res = Except.ok () := h
      subst hres
      exact emitRecord_ok_delivery cfg _ now r s (fun _ => rfl)
  | tickOp now res =>
      have hres : res = Except.ok () := h
      subst hres
      simpa [opAppends] using
        timerTick_ok_conserves cfg _ now s (fun _ => rfl)
  | closeOp now res =>
      have hres : res = Except.ok () := h
      subst hres
      simpa [opAppends] using
        closeHandler_ok_conserves cfg _ now s (fun _ => rfl)

theorem appendedRecords_cons (op : Op) (ops : List Op) :
    appendedRecords (op :: ops) = opAppends op ++ appendedRecords ops := by
  cases op <;> simp [appendedRecords, opAppends]

theorem run_ok_delivery (cfg : Config) (ops : List Op) :
    ∀ s : HState, okOps ops →
      ((run cfg ops s).uploaded).flatten ++ (run cfg ops s).state.buffer
        = s.buffer ++ appendedRecords ops := by
  induction ops with
  | nil => intro s _; simp [run, appendedRecords]
  | cons op rest ih =>
      intro s h
      have hop : op.res = Except.ok () := h op (by simp)
      have hrest : okOps rest := fun o ho => h o (by simp [ho])
      simp only [run, seqOut, List.flatten_append]
      rw [List.append_assoc, ih _ hrest, ← List.append_assoc,
        applyOp_ok_delivery cfg op s hop, appendedRecords_cons, List.append_assoc]

/-! ### Claim C3 -/

/-- Claim C3: with a sink that never fails, over any sequence of appends
interleaved with capacity, severity, timer or close triggered flushes
starting from an empty buffer, the concatenation of the batches passed to
the upload calls, followed by the records still buffered, is exactly the
sequence of appended records in insertion order.  Hence no record is lost,
none is duplicated across batches, each batch is the contiguous segment of
records appended since the previous flush, and every appended record is
passed to upload exactly once (once the final flush empties the buffer). -/
theorem run_delivers_each_record_exactly_once (cfg : Config) (ops : List Op)
    (t0 : Nat) (h : okOps ops) :
    ((run cfg ops ⟨[], t0⟩).uploaded).flatten ++ (run cfg ops ⟨[], t0⟩).state.buffer
      = appendedRecords ops := by
  simpa using run_ok_delivery cfg ops ⟨[], t0⟩ h

/-- Witness operations: two appends, a timer flush, a close. -/
def opsW : List Op :=
  [Op.emitOp rec1 (Except.ok ()) 0, Op.emitOp rec0 (Except.ok ()) 1,
   Op.tickOp 5 (Except.ok ()), Op.closeOp 9 (Except.ok ())]

/-- Witness for the C3 theorem at a concrete run. -/
theorem run_delivers_each_record_exactly_once_witness :
    ((run cfg1 opsW ⟨[], 0⟩).uploaded).flatten ++ (run cfg1 opsW ⟨[], 0⟩).state.buffer
      = appendedRecords opsW :=
  run_delivers_each_record_exactly_once cfg1 opsW 0 (by decide)

/-! ### Claim C7 -/

theorem closeHandler_ok_eq (cfg : Config) (sink : Sink) (now : Nat)
    (s : HState) (h : ∀ b, sink b = Except.ok ()) :
    closeHandler cfg sink now s =
      if s.buffer.isEmpty then ⟨s, [], []⟩
      else ⟨{ buffer := [], lastFlushTime := now }, [s.buffer], []⟩ := by
  have hf : ∀ s2 : HState, flush sink now s2 =
      if s2.buffer.isEmpty then ⟨s2, [], []⟩
      else ⟨{ buffer := [], lastFlushTime := now }, [s2.buffer], []⟩ := fun s2 =>
    flush_ok_eq sink now s2 (h _)
  by_cases hb : s.buffer.isEmpty
  · cases hfoc : cfg.flushOnClose <;>
      simp [closeHandler, memoryHandlerClose, seqOut, hfoc, hf, hb]
  · cases hfoc : cfg.flushOnClose <;>
      simp [closeHandler, memoryHandlerClose, seqOut, hfoc, hf, hb]

/-- Claim C7, counterexample: the timer is not stopped by `close`.  A
handler with flush interval 1 and a record buffered is closed at time 1
while its sink is failing (so the final flush attempts are reported and
the record stays buffered); at time 10 the periodic timer task still runs:
its wake-up finds the interval elapsed and performs a flush that uploads
the batch.  The claim that after `close()` the periodic timer task no
longer runs is false — `close` contains no cancellation and the timer
loop condition is the constant true. -/
theorem close_does_not_stop_timer_cex :
    (timerTick cfg1 sinkOk 10 (closeHandler cfg1 sinkFail 1 ⟨[rec0], 0⟩).state).uploaded
      = [[rec0]] := by
  decide

/-- Claim C7, amended: with a non-failing sink, `close()` performs at most
one final non-empty flush (the buffer is emptied and exactly the pending
batch, if any, is uploaded), and a second `close()` is a no-op that
uploads nothing and leaves the state unchanged.  However `close()` does
not cancel the periodic timer: from any post-close state (here one left by
a close whose uploads failed), a timer wake-up that finds the interval
elapsed and the buffer non-empty still performs a flush that uploads the
pending batch. -/
theorem close_final_flush_idempotent_but_timer_persists (cfg : Config)
    (sink sinkF : Sink) (now n2 n3 : Nat) (s : HState)
    (hok : ∀ b, sink b = Except.ok ()) :
    ((closeHandler cfg sink now s).state.buffer = [] ∧
     (closeHandler cfg sink now s).uploaded
       = (if s.buffer.isEmpty then [] else [s.buffer]) ∧
     closeHandler cfg sink n2 (closeHandler cfg sink now s).state
       = ⟨(closeHandler cfg sink now s).state, [], []⟩) ∧
    (0 < cfg.flushInterval →
     cfg.flushInterval ≤ n3 - (closeHandler cfg sinkF now s).state.lastFlushTime →
     (closeHandler cfg sinkF now s).state.buffer.isEmpty = false →
     (timerTick cfg sink n3 (closeHandler cfg sinkF now s).state).uploaded
       = [(closeHandler cfg sinkF now s).state.buffer]) := by
  constructor
  · rw [closeHandler_ok_eq cfg sink now s hok]
    by_cases hb : s.buffer.isEmpty
    · have hb2 : s.buffer = [] := by simpa [List.isEmpty_iff] using hb
      refine ⟨by simp [hb, hb2], by simp [hb], ?_⟩
      rw [closeHandler_ok_eq cfg sink n2 _ hok]
      simp [hb]
    · refine ⟨by simp [hb], by simp [hb], ?_⟩
      rw [closeHandler_ok_eq cfg sink n2 _ hok]
      simp [hb]
  · intro hpos hdue hne
    unfold timerTick
    rw [if_pos ⟨hpos, hdue⟩, flush_ok_eq sink n3 _ (hok _), if_neg (by simp [hne])]

/-- Witness for the amended C7 theorem at concrete inputs: a close with a
succeeding sink empties the buffer, and a later due timer tick on the
state left by a failing close still uploads the pending batch. -/
theorem close_final_flush_idempotent_but_timer_persists_witness :
    (closeHandler cfg1 sinkOk 1 ⟨[rec0], 0⟩).state.buffer = [] ∧
    (timerTick cfg1 sinkOk 10 (closeHandler cfg1 sinkFail 1 ⟨[rec1], 0⟩).state).uploaded
      = [(closeHandler cfg1 sinkFail 1 ⟨[rec1], 0⟩).state.buffer] :=
  ⟨(close_final_flush_idempotent_but_timer_persists cfg1 sinkOk sinkFail 1 2 10
      ⟨[rec0], 0⟩ (fun _ => rfl)).1.1,
   (close_final_flush_idempotent_but_timer_persists cfg1 sinkOk sinkFail 1 2 10
      ⟨[rec1], 0⟩ (fun _ => rfl)).2 (by decide) (by decide) (by decide)⟩

/-! ### Claim C9 -/

/-- Claim C9, counterexample: starting from a healthy handler writing to
its log file, two consecutive emits whose writes fail produce one stderr
report each (two in total, not one), the stream is still the log file
afterwards (no redirection happened), and a subsequent successful emit
writes its record to the log file, not to the fallback error stream. -/
theorem fhEmit_error_reported_each_time_cex :
    (fhEmit (Except.error ("disk full")) ("m1") ⟨OutTarget.logFile⟩).stderrLines.length
        + (fhEmit (Except.error ("disk full")) ("m2")
            (fhEmit (Except.error ("disk full")) ("m1")
              ⟨OutTarget.logFile⟩).state).stderrLines.length = 2 ∧
    (fhEmit (Except.error ("disk full")) ("m2")
        (fhEmit (Except.error ("disk full")) ("m1")
          ⟨OutTarget.logFile⟩).state).state.stream = OutTarget.logFile ∧
    (fhEmit (Except.ok ()) ("m3")
        (fhEmit (Except.error ("disk full")) ("m1")
          ⟨OutTarget.logFile⟩).state).written
      = [(OutTarget.logFile, "m3")] := by
  decide

/-- Claim C9, amended: every failing emit of `EnvVarFileHandler` reports
the error to the fallback stream (once per failing emit) and drops the
record, leaving the handler state — in particular its stream — unchanged,
so subsequent output still targets the log file; a successful emit writes
to the current stream.  Redirection of the stream to the fallback error
stream happens only in the constructor, when the initial file creation
check fails, together with a single report. -/
theorem fhEmit_reports_each_error_and_keeps_stream (e msg filename : String)
    (s : FileHandlerState) :
    fhEmit (Except.error e) msg s = ⟨s, [], [writeErrLine e]⟩ ∧
    fhEmit (Except.ok ()) msg s = ⟨s, [(s.stream, msg)], []⟩ ∧
    envVarFileHandlerInit filename (Except.error e)
      = (⟨OutTarget.stderrStream⟩, [createErrLine filename e]) :=
  ⟨rfl, rfl, rfl⟩

/-! ### Claim C10 -/

theorem digitChar_decode (d : Nat) (h : d < 10) :
    (Nat.digitChar d).toNat - 48 = d := by
  interval_cases d <;> rfl

theorem map_digitChar_inj {l1 l2 : List Nat} (h1 : ∀ d ∈ l1, d < 10)
    (h2 : ∀ d ∈ l2, d < 10)
    (h : l1.map Nat.digitChar = l2.map Nat.digitChar) : l1 = l2 := by
  have e1 : (l1.map Nat.digitChar).map (fun c => c.toNat - 48) = l1 := by
    rw [List.map_map]
    calc l1.map ((fun c => Char.toNat c - 48) ∘ Nat.digitChar)
        = l1.map id := List.map_congr_left (fun d hd => digitChar_decode d (h1 d hd))
      _ = l1 := List.map_id l1
  have e2 : (l2.map Nat.digitChar).map (fun c => c.toNat - 48) = l2 := by
    rw [List.map_map]
    calc l2.map ((fun c => Char.toNat c - 48) ∘ Nat.digitChar)
        = l2.map id := List.map_congr_left (fun d hd => digitChar_decode d (h2 d hd))
      _ = l2 := List.map_id l2
  rw [← e1, ← e2, h]

theorem timestampStr_injective : Function.Injective timestampStr := by
  intro a b h
  have hdata : ((Nat.digits 10 a).reverse).map Nat.digitChar
      = ((Nat.digits 10 b).reverse).map Nat.digitChar := by
    simpa [timestampStr] using congrArg String.data h
  have ha : ∀ d ∈ (Nat.digits 10 a).reverse, d < 10 := fun d hd =>
    Nat.digits_lt_base (by norm_num) (List.mem_reverse.mp hd)
  have hb : ∀ d ∈ (Nat.digits 10 b).reverse, d < 10 := fun d hd =>
    Nat.digits_lt_base (by norm_num) (List.mem_reverse.mp hd)
  have hrev := map_digitChar_inj ha hb hdata
  have hdig : Nat.digits 10 a = Nat.digits 10 b := List.reverse_injective hrev
  exact Nat.digits_inj_iff.mp hdig

/-- Claim C10: `zangetsuJsonFormatter.format` derives the JSON timestamp
field from the wall clock read at format time: the record's capture time
`created` is never read (changing it changes nothing in the output), the
timestamp field is exactly the rendering of the format-time instant, and
rendering two different instants yields two different timestamp strings,
so formatting the same record at two different instants yields different
timestamps. -/
theorem jsonFormat_timestamp_from_format_time_clock (hostname : String)
    (t1 t2 : Nat) (r : FmtRecord) (c : Nat) :
    jsonFormat hostname t1 { r with created := c } = jsonFormat hostname t1 r ∧
    (jsonFormat hostname t1 r).lookup ("timestamp") = some (timestampStr t1) ∧
    (t1 ≠ t2 → timestampStr t1 ≠ timestampStr t2) := by
  refine ⟨rfl, rfl, ?_⟩
  intro hne hts
  exact hne (timestampStr_injective hts)

/-- Witness for the C10 theorem at concrete inputs: the instants 0 and 1
render to different timestamp strings. -/
theorem jsonFormat_timestamp_from_format_time_clock_witness :
    timestampStr 0 ≠ timestampStr 1 :=
  (jsonFormat_timestamp_from_format_time_clock ("host") 0 1
    ⟨("ERROR"), ("app"), ("msg"), 3, ("f.py"), ("/f.py"), ("main"), 1, ("f")⟩ 7).2.2
    (by decide)

end Zangetsu
